import Mathlib

/-!
Verification development for the R2P server (src/index.js): a resume-extraction
endpoint (pdf text acquisition → schema-constrained Gemini call → JSON.parse →
response) and a share-link store (nanoid(8) identifiers, mongoose schema with a
30-day TTL).  The JavaScript source is shallowly embedded below: pure fragments
become Lean functions, the three Express handlers become total Lean functions
from the request plus the behaviour of the external collaborators (pdf-parse,
the Gemini provider, the Mongo store) to an HTTP response, together with an
explicit trace of the I/O effects the handler performs.
-/

/-- JSON values, as produced by the JavaScript `JSON.parse` builtin.  Numbers
are represented exactly as rationals (mantissa/fraction/exponent), object
members keep their textual order. -/
inductive Json where
  | null : Json
  | bool : Bool → Json
  | num : Rat → Json
  | str : String → Json
  | arr : List Json → Json
  | obj : List (String × Json) → Json

/-- Whether a JSON value is `null` (the check `v != null` of a mongoose
`required` validator). -/
def Json.isNull : Json → Bool
  | .null => true
  | _ => false

/-- The double-quote character (written via its code point). -/
def quoteChar : Char := Char.ofNat 34

/-- The backslash character (written via its code point). -/
def backslashChar : Char := Char.ofNat 92

/-- The opening-brace character (written via its code point). -/
def lbraceChar : Char := Char.ofNat 123

/-- The closing-brace character (written via its code point). -/
def rbraceChar : Char := Char.ofNat 125

/-- JSON insignificant whitespace: space, tab, line feed, carriage return. -/
def isJsonWs (c : Char) : Bool :=
  c = Char.ofNat 32 ∨ c = Char.ofNat 9 ∨ c = Char.ofNat 10 ∨ c = Char.ofNat 13

/-- Drop leading JSON whitespace. -/
def skipWs : List Char → List Char
  | [] => []
  | c :: cs => if isJsonWs c then skipWs cs else c :: cs

/-- Decimal digit value of a character, if it is a digit. -/
def digitVal (c : Char) : Option Nat :=
  if Char.ofNat 48 ≤ c ∧ c ≤ Char.ofNat 57 then some (c.toNat - 48) else none

/-- Hexadecimal digit value of a character, if it is a hex digit. -/
def hexVal (c : Char) : Option Nat :=
  if Char.ofNat 48 ≤ c ∧ c ≤ Char.ofNat 57 then some (c.toNat - 48)
  else if Char.ofNat 97 ≤ c ∧ c ≤ Char.ofNat 102 then some (c.toNat - 87)
  else if Char.ofNat 65 ≤ c ∧ c ≤ Char.ofNat 70 then some (c.toNat - 55)
  else none

/-- Consume a maximal run of decimal digits, returning the accumulated value,
the number of digits consumed, and the rest of the input. -/
def takeDigits : List Char → Nat → Nat → Nat × Nat × List Char
  | [], acc, cnt => (acc, cnt, [])
  | c :: cs, acc, cnt =>
    match digitVal c with
    | some d => takeDigits cs (acc * 10 + d) (cnt + 1)
    | none => (acc, cnt, c :: cs)

/-- JSON integer part: `0`, or a nonzero digit followed by digits. -/
def parseIntPart : List Char → Option (Nat × List Char)
  | [] => none
  | c :: cs =>
    if c = Char.ofNat 48 then some (0, cs)
    else
      match digitVal c with
      | some d =>
        match takeDigits cs d 1 with
        | (v, _, r) => some (v, r)
      | none => none

/-- JSON fraction part: optional; if a dot is present at least one digit must
follow.  Returns the fraction's numerator and digit count. -/
def parseFracPart : List Char → Option (Nat × Nat × List Char)
  | c :: cs =>
    if c = Char.ofNat 46 then
      match takeDigits cs 0 0 with
      | (_, 0, _) => none
      | (v, cnt, r) => some (v, cnt, r)
    else some (0, 0, c :: cs)
  | [] => some (0, 0, [])

/-- JSON exponent part: optional; `e`/`E`, optional sign, at least one digit. -/
def parseExpPart : List Char → Option (Int × List Char)
  | c :: cs =>
    if c = Char.ofNat 101 ∨ c = Char.ofNat 69 then
      match cs with
      | c2 :: cs2 =>
        if c2 = Char.ofNat 43 then
          match takeDigits cs2 0 0 with
          | (_, 0, _) => none
          | (v, _, r) => some ((v : Int), r)
        else if c2 = Char.ofNat 45 then
          match takeDigits cs2 0 0 with
          | (_, 0, _) => none
          | (v, _, r) => some (-(v : Int), r)
        else
          match takeDigits (c2 :: cs2) 0 0 with
          | (_, 0, _) => none
          | (v, _, r) => some ((v : Int), r)
      | [] => none
    else some (0, c :: cs)
  | [] => some (0, [])

/-- Assemble the exact rational value from sign, integer part, fraction and
exponent: `(-1)^neg * (ip.fracDigits) * 10^ex`. -/
def ratOfParts (neg : Bool) (ip fracNum fracCnt : Nat) (ex : Int) : Rat :=
  let mantissa : Int := (ip * 10 ^ fracCnt + fracNum : Nat)
  let signed : Int := if neg then -mantissa else mantissa
  if 0 ≤ ex then mkRat (signed * (10 : Int) ^ ex.toNat) (10 ^ fracCnt)
  else mkRat signed (10 ^ fracCnt * 10 ^ (-ex).toNat)

/-- Parse a JSON number (RFC 8259 grammar). -/
def parseNumber (cs : List Char) : Option (Rat × List Char) := do
  let (neg, cs1) :=
    match cs with
    | c :: rest => if c = Char.ofNat 45 then (true, rest) else (false, c :: rest)
    | [] => (false, [])
  let (ip, cs2) ← parseIntPart cs1
  let (fracNum, fracCnt, cs3) ← parseFracPart cs2
  let (ex, cs4) ← parseExpPart cs3
  pure (ratOfParts neg ip fracNum fracCnt ex, cs4)

/-- Parse the body of a JSON string after the opening quote, handling the JSON
escape sequences.  Fueled by the input length; each step consumes a char. -/
def parseStringBody : Nat → List Char → Option (List Char × List Char)
  | 0, _ => none
  | _ + 1, [] => none
  | fuel + 1, c :: cs =>
    if c = quoteChar then some ([], cs)
    else if c = backslashChar then
      match cs with
      | e :: cs2 =>
        if e = quoteChar then
          (parseStringBody fuel cs2).map (fun p => (quoteChar :: p.1, p.2))
        else if e = backslashChar then
          (parseStringBody fuel cs2).map (fun p => (backslashChar :: p.1, p.2))
        else if e = Char.ofNat 47 then
          (parseStringBody fuel cs2).map (fun p => (Char.ofNat 47 :: p.1, p.2))
        else if e = Char.ofNat 98 then
          (parseStringBody fuel cs2).map (fun p => (Char.ofNat 8 :: p.1, p.2))
        else if e = Char.ofNat 102 then
          (parseStringBody fuel cs2).map (fun p => (Char.ofNat 12 :: p.1, p.2))
        else if e = Char.ofNat 110 then
          (parseStringBody fuel cs2).map (fun p => (Char.ofNat 10 :: p.1, p.2))
        else if e = Char.ofNat 114 then
          (parseStringBody fuel cs2).map (fun p => (Char.ofNat 13 :: p.1, p.2))
        else if e = Char.ofNat 116 then
          (parseStringBody fuel cs2).map (fun p => (Char.ofNat 9 :: p.1, p.2))
        else if e = Char.ofNat 117 then
          match cs2 with
          | a :: b :: c3 :: d :: cs3 => do
            let ha ← hexVal a
            let hb ← hexVal b
            let hc ← hexVal c3
            let hd ← hexVal d
            let code := ((ha * 16 + hb) * 16 + hc) * 16 + hd
            let p ← parseStringBody fuel cs3
            pure (Char.ofNat code :: p.1, p.2)
          | _ => none
        else none
      | [] => none
    else if c.toNat < 32 then none
    else (parseStringBody fuel cs).map (fun p => (c :: p.1, p.2))

mutual

/-- Parse one JSON value (fueled; fuel bounds the nesting/recursion depth). -/
def parseValue : Nat → List Char → Option (Json × List Char)
  | 0, _ => none
  | fuel + 1, cs =>
    match skipWs cs with
    | 'n' :: 'u' :: 'l' :: 'l' :: rest => some (Json.null, rest)
    | 't' :: 'r' :: 'u' :: 'e' :: rest => some (Json.bool true, rest)
    | 'f' :: 'a' :: 'l' :: 's' :: 'e' :: rest => some (Json.bool false, rest)
    | c :: rest =>
      if c = quoteChar then
        (parseStringBody (rest.length + 1) rest).map
          (fun p => (Json.str (String.mk p.1), p.2))
      else if c = Char.ofNat 91 then
        match skipWs rest with
        | c2 :: rest2 =>
          if c2 = Char.ofNat 93 then some (Json.arr [], rest2)
          else (parseElements fuel (c2 :: rest2)).map (fun p => (Json.arr p.1, p.2))
        | [] => none
      else if c = lbraceChar then
        match skipWs rest with
        | c2 :: rest2 =>
          if c2 = rbraceChar then some (Json.obj [], rest2)
          else (parseMembers fuel (c2 :: rest2)).map (fun p => (Json.obj p.1, p.2))
        | [] => none
      else (parseNumber (c :: rest)).map (fun p => (Json.num p.1, p.2))
    | [] => none

/-- Parse a nonempty comma-separated list of array elements up to `]`. -/
def parseElements : Nat → List Char → Option (List Json × List Char)
  | 0, _ => none
  | fuel + 1, cs => do
    let (v, rest) ← parseValue fuel cs
    match skipWs rest with
    | c :: rest2 =>
      if c = Char.ofNat 44 then do
        let (vs, rest3) ← parseElements fuel rest2
        pure (v :: vs, rest3)
      else if c = Char.ofNat 93 then pure ([v], rest2)
      else none
    | [] => none

/-- Parse a nonempty comma-separated list of object members up to the closing
brace. -/
def parseMembers : Nat → List Char → Option (List (String × Json) × List Char)
  | 0, _ => none
  | fuel + 1, cs =>
    match skipWs cs with
    | c :: rest =>
      if c = quoteChar then do
        let (k, rest2) ← parseStringBody (rest.length + 1) rest
        match skipWs rest2 with
        | c2 :: rest3 =>
          if c2 = Char.ofNat 58 then do
            let (v, rest4) ← parseValue fuel rest3
            match skipWs rest4 with
            | c3 :: rest5 =>
              if c3 = Char.ofNat 44 then do
                let (ms, rest6) ← parseMembers fuel rest5
                pure ((String.mk k, v) :: ms, rest6)
              else if c3 = rbraceChar then pure ([(String.mk k, v)], rest5)
              else none
            | [] => none
          else none
        | [] => none
      else none
    | [] => none

end

/-- Model of the JavaScript builtin `JSON.parse` (external to the repository):
parses the whole text as one JSON value, `none` on any syntax error.  The
fuel `2 * length + 2` suffices since every recursive call consumes input. -/
def jsonParse (s : String) : Option Json :=
  match parseValue (2 * s.length + 2) s.data with
  | some (j, rest) => if skipWs rest = [] then some j else none
  | none => none

example : jsonParse "\x7b\x7d" = some (Json.obj []) := rfl
example : jsonParse "\x7b\"a\":1\x7d" = some (Json.obj [("a", Json.num 1)]) := rfl
example : jsonParse "```json\n\x7b\"a\":1\x7d\n```" = none := rfl
example : jsonParse "[1, 2.5, \"x\"]"
    = some (Json.arr [Json.num 1, Json.num (mkRat 5 2), Json.str "x"]) := rfl
example : jsonParse "-1.5e2" = some (Json.num (-150)) := rfl
example : jsonParse "not json" = none := rfl
example : jsonParse "" = none := rfl

/-- First value bound to a key in a JSON object member list (JS property
access on the object built by `JSON.parse`). -/
def lookupKey (k : String) : List (String × Json) → Option Json
  | [] => none
  | (k2, v) :: rest => if k2 = k then some v else lookupKey k rest

/-- Nodes of the declarative response schema passed to the provider
(src/index.js lines 66-139): nested OBJECT / ARRAY / STRING types. -/
inductive SchemaNode where
  | string : SchemaNode
  | object : List (String × SchemaNode) → SchemaNode
  | array : SchemaNode → SchemaNode

/-- The fixed `schema` constant of src/index.js (lines 66-139), the
SchemaRegistry: the declared shape of the CanonicalRecord. -/
def schema : SchemaNode :=
  SchemaNode.object
    [ ("basics", SchemaNode.object
        [ ("name", SchemaNode.string)
        , ("label", SchemaNode.string)
        , ("email", SchemaNode.string)
        , ("linkedin", SchemaNode.string)
        , ("github", SchemaNode.string)
        , ("summary", SchemaNode.string) ])
    , ("skills", SchemaNode.array (SchemaNode.object [("name", SchemaNode.string)]))
    , ("projects", SchemaNode.array (SchemaNode.object
        [ ("name", SchemaNode.string)
        , ("description", SchemaNode.string)
        , ("technologies", SchemaNode.array SchemaNode.string)
        , ("url", SchemaNode.string) ]))
    , ("experience", SchemaNode.array (SchemaNode.object
        [ ("role", SchemaNode.string)
        , ("company", SchemaNode.string)
        , ("date", SchemaNode.string)
        , ("description", SchemaNode.string) ]))
    , ("education", SchemaNode.array (SchemaNode.object
        [ ("institution", SchemaNode.string)
        , ("degree", SchemaNode.string)
        , ("date", SchemaNode.string) ]))
    , ("achievements", SchemaNode.array (SchemaNode.object
        [ ("description", SchemaNode.string) ]))
    , ("otherSections", SchemaNode.array (SchemaNode.object
        [ ("title", SchemaNode.string)
        , ("content", SchemaNode.string) ])) ]

mutual

/-- Totality of a JSON value over a schema node: every declared string field
is present as a string, every declared array field is present as an array
whose elements are in turn total.  This is the invariant the specification
asserts of records returned by a successful extraction. -/
def totalOver : SchemaNode → Json → Bool
  | SchemaNode.string, Json.str _ => true
  | SchemaNode.string, _ => false
  | SchemaNode.array n, Json.arr xs => totalOverList n xs
  | SchemaNode.array _, _ => false
  | SchemaNode.object fields, Json.obj kvs => totalOverFields fields kvs
  | SchemaNode.object _, _ => false

/-- Every element of the list is total over the element schema. -/
def totalOverList : SchemaNode → List Json → Bool
  | _, [] => true
  | n, x :: xs => totalOver n x && totalOverList n xs

/-- Every declared field is present in the object and total over its node. -/
def totalOverFields : List (String × SchemaNode) → List (String × Json) → Bool
  | [], _ => true
  | (k, n) :: rest, kvs =>
    (match lookupKey k kvs with
     | some v => totalOver n v
     | none => false) && totalOverFields rest kvs

end

/-- An uploaded file as multer delivers it: an in-memory byte buffer. -/
structure UploadedFile where
  bytes : List Nat

/-- Result of the external `pdfParse` collaborator on a buffer: the extracted
text, or a thrown error with a message. -/
inductive PdfResult where
  | ok : String → PdfResult
  | err : String → PdfResult

/-- Result of the external Gemini `generateContent` collaborator: the raw
response text, or a thrown error (network, auth, quota, schema rejection)
with a message. -/
inductive ProviderResult where
  | ok : String → ProviderResult
  | err : String → ProviderResult

/-- The extraction request sent to the provider: the fixed system instruction
together with the per-request user payload (the document text). -/
structure PromptRequest where
  systemInstruction : String
  userText : String

/-- I/O effects a handler can perform, in order: decoding the uploaded pdf,
calling the generative provider with a built request, touching the share
store. -/
inductive Effect where
  | pdfExtract : Effect
  | providerCall : PromptRequest → Effect
  | storeAccess : Effect

/-- An HTTP response: status code and JSON body. -/
structure HttpResponse where
  status : Nat
  body : Json

/-- The fixed system instruction of src/index.js (lines 44-64), transcribed
line by line from the template literal. -/
def systemPrompt : String :=
  String.intercalate "\n"
    [ "You are a strict, expert resume parsing assistant. Your *only* job is to extract data and format it *exactly* according to the provided JSON schema."
    , ""
    , "- **Important Rules**:"
    , "    - Do not invent information. If a field is not found, return an empty string \"\" for strings or an empty array [] for arrays."
    , "    - Your response *must* be a valid JSON object. Do not include markdown \x60\x60\x60json \x60\x60\x60 or any other text."
    , "    - Be very precise. Do not merge unrelated sections."
    , ""
    , "- **Field-by-Field Instructions**:"
    , "    - **basics.summary**: **This is ONLY for the 1-2 sentence professional summary.** It *MUST* end before the \x27Technical Skills\x27 or \x27Experience\x27 section. **DO NOT** include skills, projects, or experience in this field."
    , "    - **skills**: Find the \"Skills\" section and list all technical skills."
    , "    - **projects**:"
    , "        - Find the \"Projects\" section."
    , "        - \x60name\x60: The project\x27s title."
    , "        - \x60description\x60: The bullet points or paragraph *describing* the project."
    , "        - \x60technologies\x60: The list of technologies used (e.g., \"React.js\", \"Node.js\")."
    , "        - \x60url\x60: **ONLY populate this if you see a full, explicit URL** (e.g., \"github.com/user/repo\"). If you only see link *text* like \"Live Demo\" or \"GitHub\", leave this field as an empty string \x60\"\"\x60."
    , "  "
    , "    - **experience**: should be a list of professional work experiences, including role, company, duration, and description."
    , "- **achievements**:should be a list of awards, certifications, or key achievements."
    , "    - **education**: Extract all education history into this array."
    , "    - **otherSections**: This is for *everything else* not covered above, such as \"Achievements\", \"Certifications\", or \"Publications\"." ]

/-- The ExtractionPromptBuilder: the request sent to the provider at
src/index.js lines 153-161 is the fixed `systemPrompt` constant as system
instruction, and exactly the acquired document text as the single user part. -/
def buildPrompt (t : String) : PromptRequest :=
  PromptRequest.mk systemPrompt t

/-- The 500 response of the catch branch at src/index.js line 169:
`res.status(500).json(. error: ..., details: error.message .)`. -/
def parseFailureResponse (details : String) : HttpResponse :=
  HttpResponse.mk 500
    (Json.obj [("error", Json.str "Failed to parse resume."), ("details", Json.str details)])

/-- Modelled message of the SyntaxError thrown by the JavaScript engine when
`JSON.parse` rejects its input (external to the repository; only its
existence, not its content, matters to any claim). -/
def jsonSyntaxErrorMessage (_raw : String) : String :=
  "Unexpected token in JSON"

/-- The `POST /api/parse-resume` handler (src/index.js lines 142-171), as a
function of the request (the optional uploaded file) and the behaviour of the
two external collaborators (pdf-parse on the buffer, the Gemini provider on
the built request).  Returns the HTTP response and the ordered trace of I/O
effects performed. -/
def parseResumeHandler (file : Option UploadedFile)
    (pdf : UploadedFile → PdfResult)
    (provider : PromptRequest → ProviderResult) :
    HttpResponse × List Effect :=
  match file with
  | none =>
    (HttpResponse.mk 400 (Json.obj [("error", Json.str "No resume file uploaded.")]), [])
  | some f =>
    match pdf f with
    | PdfResult.err m => (parseFailureResponse m, [Effect.pdfExtract])
    | PdfResult.ok resumeText =>
      let req := buildPrompt resumeText
      match provider req with
      | ProviderResult.err m =>
        (parseFailureResponse m, [Effect.pdfExtract, Effect.providerCall req])
      | ProviderResult.ok raw =>
        match jsonParse raw with
        | none =>
          (parseFailureResponse (jsonSyntaxErrorMessage raw),
           [Effect.pdfExtract, Effect.providerCall req])
        | some parsedJson =>
          (HttpResponse.mk 200 parsedJson,
           [Effect.pdfExtract, Effect.providerCall req])

/-- A persisted share record, the document shape of the mongoose
`shareSchema` (src/index.js lines 23-30): identifier, arbitrary caller data,
creation timestamp (milliseconds since the epoch, as `Date.now`). -/
structure ShareRecord where
  shareId : String
  data : Json
  createdAt : Nat

/-- The TTL set on `createdAt` by the schema option
`expires: 60 * 60 * 24 * 30` (src/index.js line 27), in seconds. -/
def shareExpireSeconds : Nat := 60 * 60 * 24 * 30

/-- The URL-safe 64-character alphabet of the `nanoid` library (external
collaborator; its published constant). -/
def urlAlphabet : String :=
  "useandom-26T198340PX75pxJACKVERYMINDBUSHWOLF_GQZbfghjklqvwyzrict"

/-- The `nanoid(size)` generator (external collaborator), as a function of
the random bytes it draws: each byte is masked to 6 bits and selects a
character of the URL-safe alphabet. -/
def nanoid (randomBytes : List Nat) (size : Nat) : String :=
  String.mk (((randomBytes.take size).map (fun b => urlAlphabet.data.getD (b % 64) 'u')))

/-- `findOne . shareId: id .` over the stored records: the first record whose
`shareId` equals the queried identifier.  The query filters on the identifier
only — no condition on `createdAt`. -/
def findShare : List ShareRecord → String → Option ShareRecord
  | [], _ => none
  | r :: rest, id => if r.shareId = id then some r else findShare rest id

/-- The `POST /api/share` handler (src/index.js lines 174-184), as a function
of the current store contents, the random bytes consumed by `nanoid`, the
request body and the current time.  `Share.create` fails (and the catch
branch answers 500) when the mongoose `required` validator rejects a null
`data` or the unique index on `shareId` rejects a duplicate; otherwise the
record is appended and the identifier is returned. -/
def shareCreateHandler (store : List ShareRecord) (randomBytes : List Nat)
    (body : Json) (now : Nat) : HttpResponse × List ShareRecord :=
  let shareId := nanoid randomBytes 8
  if body.isNull || (findShare store shareId).isSome then
    (HttpResponse.mk 500 (Json.obj [("error", Json.str "Failed to create share link.")]), store)
  else
    (HttpResponse.mk 200 (Json.obj [("shareId", Json.str shareId)]),
     store ++ [ShareRecord.mk shareId body now])

/-- The `GET /api/share/:id` handler (src/index.js lines 187-196), as a
function of the current store contents and the requested identifier: 404
with an error object when no record matches, otherwise the stored data. -/
def getShareHandler (store : List ShareRecord) (id : String) : HttpResponse :=
  match findShare store id with
  | none => HttpResponse.mk 404 (Json.obj [("error", Json.str "Share link not found")])
  | some record => HttpResponse.mk 200 record.data

/-- The failure taxonomy of the specification, each member realised by a
response branch of src/index.js. -/
inductive FailureClass where
  | noDocumentProvided : FailureClass
  | textAcquisitionFailure : FailureClass
  | providerFailure : FailureClass
  | extractionFailure : FailureClass
  | shareNotFound : FailureClass
  | shareCreationFailure : FailureClass
deriving DecidableEq

/-- The HTTP status each failure class receives in the code: 400 from the
no-file branch (line 146), 500 from the parse-resume catch branch (line 169)
for pdf, provider and JSON-parse failures alike, 404 from the share lookup
miss (line 190), 500 from the share-create catch branch (line 182). -/
def statusOf : FailureClass → Nat
  | FailureClass.noDocumentProvided => 400
  | FailureClass.textAcquisitionFailure => 500
  | FailureClass.providerFailure => 500
  | FailureClass.extractionFailure => 500
  | FailureClass.shareNotFound => 404
  | FailureClass.shareCreationFailure => 500

/-- A machine-readable error object: a JSON object carrying an `error`
field that is a string. -/
def hasErrorField : Json → Bool
  | Json.obj kvs =>
    match lookupKey "error" kvs with
    | some (Json.str _) => true
    | _ => false
  | _ => false

example : (parseResumeHandler none (fun _ => PdfResult.ok "t") (fun _ => ProviderResult.ok "x")).2 = [] := rfl
example : shareExpireSeconds = 2592000 := rfl
example : nanoid [0, 1, 2, 3, 4, 5, 6, 7, 8] 8 = "useandom" := rfl
example : urlAlphabet.length = 64 := rfl
example : totalOver schema (Json.obj []) = false := by
  simp [totalOver, totalOverFields, schema, lookupKey]

/-- Any character selected by the masked-byte indexing of `nanoid` is a
character of the URL-safe alphabet. -/
theorem urlAlphabet_getD_mem (n : Nat) :
    urlAlphabet.data.getD (n % 64) 'u' ∈ urlAlphabet.data := by
  have h64 : urlAlphabet.data.length = 64 := rfl
  have hlt : n % 64 < urlAlphabet.data.length := by
    rw [h64]; exact Nat.mod_lt _ (by norm_num)
  rw [List.getD_eq_getElem _ _ hlt]
  exact List.getElem_mem hlt

/-- Every character of the nanoid alphabet is alphanumeric or a hyphen or an
underscore. -/
theorem urlAlphabet_chars_urlsafe :
    ∀ c ∈ urlAlphabet.data,
      c.isAlphanum = true ∨ c = Char.ofNat 45 ∨ c = Char.ofNat 95 := by
  decide

/-- A lookup that misses the first block of a concatenated store continues in
the second block. -/
theorem findShare_append_none (store l : List ShareRecord) (id : String)
    (h : findShare store id = none) :
    findShare (store ++ l) id = findShare l id := by
  induction store with
  | nil => rfl
  | cons r rest ih =>
    by_cases hr : r.shareId = id
    · simp [findShare, hr] at h
    · simp only [List.cons_append, findShare, if_neg hr] at h ⊢
      exact ih h

/-- Rewriting every `createdAt` in the store is invisible to `findShare`,
which filters on `shareId` only. -/
theorem findShare_map_createdAt (store : List ShareRecord) (id : String)
    (f : ShareRecord → Nat) :
    findShare (store.map (fun r => ShareRecord.mk r.shareId r.data (f r))) id
      = (findShare store id).map (fun r => ShareRecord.mk r.shareId r.data (f r)) := by
  induction store with
  | nil => rfl
  | cons r rest ih =>
    by_cases hr : r.shareId = id <;> simp [findShare, hr, ih]

/-- C1 counterexample: a request in which the provider returns the valid JSON
text consisting of an empty object succeeds with status 200 and returns that
empty object unchanged — a record in which every schema field, `basics`
included, is absent, so the returned record is not total over the
CanonicalRecord schema and no defaults were filled in. -/
theorem claim1_counterexample :
    (parseResumeHandler (some (UploadedFile.mk [1]))
        (fun _ => PdfResult.ok "resume text")
        (fun _ => ProviderResult.ok "\x7b\x7d")).1
      = HttpResponse.mk 200 (Json.obj []) ∧
    totalOver schema (Json.obj []) = false ∧
    lookupKey "basics" [] = none := by
  refine ⟨rfl, ?_, rfl⟩
  simp [totalOver, totalOverFields, schema, lookupKey]

/-- C1 (amended): for every extraction request that succeeds, the record
returned to the caller is exactly the JSON value obtained by parsing the
provider output — any field absent from the provider output stays absent;
the server fills no declared defaults before returning the record. -/
theorem claim1_passthrough (f : UploadedFile) (pdf : UploadedFile → PdfResult)
    (provider : PromptRequest → ProviderResult) (text raw : String) (j : Json)
    (hpdf : pdf f = PdfResult.ok text)
    (hprov : provider (buildPrompt text) = ProviderResult.ok raw)
    (hparse : jsonParse raw = some j) :
    (parseResumeHandler (some f) pdf provider).1 = HttpResponse.mk 200 j := by
  simp [parseResumeHandler, hpdf, hprov, hparse]

/-- Witness for the amended C1 at a concrete request. -/
theorem claim1_witness :
    (parseResumeHandler (some (UploadedFile.mk [0]))
        (fun _ => PdfResult.ok "doc")
        (fun _ => ProviderResult.ok "\x7b\"skills\":[]\x7d")).1
      = HttpResponse.mk 200 (Json.obj [("skills", Json.arr [])]) :=
  claim1_passthrough (UploadedFile.mk [0]) _ _ "doc" "\x7b\"skills\":[]\x7d"
    (Json.obj [("skills", Json.arr [])]) rfl rfl rfl

/-- C2: whenever the provider returns text that `JSON.parse` rejects, the
endpoint answers with the 500-status ExtractionFailure error object of the
catch branch; the handler is a total function (the process does not crash),
and the raw text reaches `JSON.parse` unmodified — no repair, fence
stripping, or partial recovery happens before the failure. -/
theorem claim2_nonjson_500 (f : UploadedFile) (pdf : UploadedFile → PdfResult)
    (provider : PromptRequest → ProviderResult) (text raw : String)
    (hpdf : pdf f = PdfResult.ok text)
    (hprov : provider (buildPrompt text) = ProviderResult.ok raw)
    (hparse : jsonParse raw = none) :
    (parseResumeHandler (some f) pdf provider).1
      = parseFailureResponse (jsonSyntaxErrorMessage raw) ∧
    (parseResumeHandler (some f) pdf provider).1.status = 500 ∧
    hasErrorField (parseResumeHandler (some f) pdf provider).1.body = true := by
  refine ⟨?_, ?_, ?_⟩ <;> simp [parseResumeHandler, hpdf, hprov, hparse,
    parseFailureResponse, hasErrorField, lookupKey]

/-- Witness for C2: a provider answer wrapped in markdown fences fails even
though the fenced content alone is valid JSON — the pipeline strips nothing. -/
theorem claim2_witness :
    (parseResumeHandler (some (UploadedFile.mk [0]))
        (fun _ => PdfResult.ok "doc")
        (fun _ => ProviderResult.ok "```json\n\x7b\"a\":1\x7d\n```")).1.status = 500 ∧
    jsonParse "```json\n\x7b\"a\":1\x7d\n```" = none ∧
    jsonParse "\x7b\"a\":1\x7d" = some (Json.obj [("a", Json.num 1)]) :=
  ⟨(claim2_nonjson_500 (UploadedFile.mk [0]) _ _ "doc"
      "```json\n\x7b\"a\":1\x7d\n```" rfl rfl rfl).2.1, rfl, rfl⟩

/-- C5: an extraction request with no attached file is answered 400 with the
NoDocumentProvided error object, and the effect trace is empty — no pdf
decoding, no provider call, no store access happens on that request. -/
theorem claim5_no_file (pdf : UploadedFile → PdfResult)
    (provider : PromptRequest → ProviderResult) :
    parseResumeHandler none pdf provider
      = (HttpResponse.mk 400 (Json.obj [("error", Json.str "No resume file uploaded.")]), []) :=
  rfl

/-- C6: when no live record matches the identifier, the share lookup handler
returns the 404 not-found error object; being a total function it never
throws. -/
theorem claim6_not_found (store : List ShareRecord) (id : String)
    (h : findShare store id = none) :
    getShareHandler store id
      = HttpResponse.mk 404 (Json.obj [("error", Json.str "Share link not found")]) := by
  simp [getShareHandler, h]

/-- Witness for C6 at a concrete empty store. -/
theorem claim6_witness :
    getShareHandler [] "missing99"
      = HttpResponse.mk 404 (Json.obj [("error", Json.str "Share link not found")]) :=
  claim6_not_found [] "missing99" rfl

/-- C7: on every successful extraction the response body is exactly the JSON
value obtained by parsing the provider raw output, forwarded unchanged. -/
theorem claim7_forward_unchanged (f : UploadedFile) (pdf : UploadedFile → PdfResult)
    (provider : PromptRequest → ProviderResult) (text raw : String) (j : Json)
    (hpdf : pdf f = PdfResult.ok text)
    (hprov : provider (buildPrompt text) = ProviderResult.ok raw)
    (hparse : jsonParse raw = some j) :
    (parseResumeHandler (some f) pdf provider).1.status = 200 ∧
    (parseResumeHandler (some f) pdf provider).1.body = j := by
  constructor <;> simp [parseResumeHandler, hpdf, hprov, hparse]

/-- Witness for C7 at a concrete nested provider output. -/
theorem claim7_witness :
    (parseResumeHandler (some (UploadedFile.mk [7]))
        (fun _ => PdfResult.ok "cv")
        (fun _ => ProviderResult.ok "\x7b\"basics\":\x7b\"name\":\"Ada\"\x7d\x7d")).1.status = 200 ∧
    (parseResumeHandler (some (UploadedFile.mk [7]))
        (fun _ => PdfResult.ok "cv")
        (fun _ => ProviderResult.ok "\x7b\"basics\":\x7b\"name\":\"Ada\"\x7d\x7d")).1.body
      = Json.obj [("basics", Json.obj [("name", Json.str "Ada")])] :=
  claim7_forward_unchanged (UploadedFile.mk [7]) _ _ "cv"
    "\x7b\"basics\":\x7b\"name\":\"Ada\"\x7d\x7d"
    (Json.obj [("basics", Json.obj [("name", Json.str "Ada")])]) rfl rfl rfl

/-- C3 counterexample: TextAcquisitionFailure and ExtractionFailure are
different failure classes, yet both receive status 500; worse, a pdf-decoding
error and a provider error with the same message produce byte-identical
responses — two different failure classes are not distinguishable, so the
statuses are not distinct per class. -/
theorem claim3_counterexample :
    statusOf FailureClass.textAcquisitionFailure
      = statusOf FailureClass.extractionFailure ∧
    FailureClass.textAcquisitionFailure ≠ FailureClass.extractionFailure ∧
    (parseResumeHandler (some (UploadedFile.mk [2]))
        (fun _ => PdfResult.err "boom") (fun _ => ProviderResult.ok "\x7b\x7d")).1
      = (parseResumeHandler (some (UploadedFile.mk [2]))
          (fun _ => PdfResult.ok "doc") (fun _ => ProviderResult.err "boom")).1 :=
  ⟨rfl, by decide, rfl⟩

/-- C3 (amended): NoDocumentProvided maps to status 400 and ShareNotFound to
status 404, while TextAcquisitionFailure, ProviderFailure, ExtractionFailure
and ShareCreationFailure all share status 500 and are not mutually
distinguishable; still, every failing response of each handler carries a
machine-readable error object and one of those statuses — no failure is
silently swallowed. -/
theorem claim3_amended :
    statusOf FailureClass.noDocumentProvided = 400 ∧
    statusOf FailureClass.shareNotFound = 404 ∧
    statusOf FailureClass.textAcquisitionFailure = 500 ∧
    statusOf FailureClass.providerFailure = 500 ∧
    statusOf FailureClass.extractionFailure = 500 ∧
    statusOf FailureClass.shareCreationFailure = 500 ∧
    (∀ (file : Option UploadedFile) (pdf : UploadedFile → PdfResult)
       (provider : PromptRequest → ProviderResult),
      (parseResumeHandler file pdf provider).1.status = 200 ∨
      (((parseResumeHandler file pdf provider).1.status = 400 ∨
        (parseResumeHandler file pdf provider).1.status = 500) ∧
       hasErrorField (parseResumeHandler file pdf provider).1.body = true)) ∧
    (∀ (store : List ShareRecord) (randomBytes : List Nat) (body : Json) (now : Nat),
      (shareCreateHandler store randomBytes body now).1.status = 200 ∨
      ((shareCreateHandler store randomBytes body now).1.status = 500 ∧
       hasErrorField (shareCreateHandler store randomBytes body now).1.body = true)) ∧
    (∀ (store : List ShareRecord) (id : String),
      (getShareHandler store id).status = 200 ∨
      ((getShareHandler store id).status = 404 ∧
       hasErrorField (getShareHandler store id).body = true)) := by
  refine ⟨rfl, rfl, rfl, rfl, rfl, rfl, ?_, ?_, ?_⟩
  · intro file pdf provider
    match file with
    | none => exact Or.inr ⟨Or.inl rfl, rfl⟩
    | some f =>
      match hp : pdf f with
      | PdfResult.err m =>
        exact Or.inr ⟨Or.inr (by simp [parseResumeHandler, hp, parseFailureResponse]),
          by simp [parseResumeHandler, hp, parseFailureResponse, hasErrorField, lookupKey]⟩
      | PdfResult.ok t =>
        match hv : provider (buildPrompt t) with
        | ProviderResult.err m =>
          exact Or.inr ⟨Or.inr (by simp [parseResumeHandler, hp, hv, parseFailureResponse]),
            by simp [parseResumeHandler, hp, hv, parseFailureResponse, hasErrorField, lookupKey]⟩
        | ProviderResult.ok raw =>
          match hj : jsonParse raw with
          | none =>
            exact Or.inr ⟨Or.inr (by simp [parseResumeHandler, hp, hv, hj, parseFailureResponse]),
              by simp [parseResumeHandler, hp, hv, hj, parseFailureResponse, hasErrorField, lookupKey]⟩
          | some j => exact Or.inl (by simp [parseResumeHandler, hp, hv, hj])
  · intro store randomBytes body now
    by_cases hc : (body.isNull || (findShare store (nanoid randomBytes 8)).isSome) = true
    · exact Or.inr ⟨by simp [shareCreateHandler, hc],
        by simp [shareCreateHandler, hc, hasErrorField, lookupKey]⟩
    · exact Or.inl (by simp [shareCreateHandler, hc])
  · intro store id
    match hf : findShare store id with
    | none =>
      exact Or.inr ⟨by simp [getShareHandler, hf],
        by simp [getShareHandler, hf, hasErrorField, lookupKey]⟩
    | some r => exact Or.inl (by simp [getShareHandler, hf])

/-- C4: creating a share and immediately fetching it by the identifier that
the create returned yields exactly the stored value: whenever the create
handler answers 200 with an identifier, the get handler applied to the
updated store and that identifier answers 200 with the original data. -/
theorem claim4_round_trip (store : List ShareRecord) (randomBytes : List Nat)
    (v : Json) (now : Nat) (id : String)
    (h : (shareCreateHandler store randomBytes v now).1
          = HttpResponse.mk 200 (Json.obj [("shareId", Json.str id)])) :
    getShareHandler (shareCreateHandler store randomBytes v now).2 id
      = HttpResponse.mk 200 v := by
  by_cases hc : (v.isNull || (findShare store (nanoid randomBytes 8)).isSome) = true
  · simp [shareCreateHandler, hc] at h
  · have hid : nanoid randomBytes 8 = id := by
      simp [shareCreateHandler, hc] at h
      exact h
    have hfresh : findShare store id = none := by
      rw [← hid]
      rcases Bool.or_eq_false_iff.mp (Bool.not_eq_true _ ▸ hc) with ⟨_, h2⟩
      exact Option.not_isSome_iff_eq_none.mp (by simp [h2])
    simp only [shareCreateHandler, hc, if_neg, Bool.not_eq_true] at *
    simp only [getShareHandler, hid]
    rw [findShare_append_none _ _ _ hfresh]
    simp [findShare, hid]

/-- Witness for C4: sharing a small object through the two handlers round
trips at a concrete store, byte source and timestamp. -/
theorem claim4_witness :
    getShareHandler
      (shareCreateHandler [] [0, 1, 2, 3, 4, 5, 6, 7] (Json.obj [("foo", Json.num 1)]) 0).2
      "useandom"
      = HttpResponse.mk 200 (Json.obj [("foo", Json.num 1)]) :=
  claim4_round_trip [] [0, 1, 2, 3, 4, 5, 6, 7] (Json.obj [("foo", Json.num 1)]) 0
    "useandom" rfl

/-- C8: the extraction prompt builder is pure and deterministic — the request
value sent to the provider is a function of the document text alone, its
system instruction is the fixed `systemPrompt` constant and its user payload
is exactly the acquired text; the effect trace shows that before the provider
call the handler performed no network or storage access beyond the pdf
decoding that produced the text. -/
theorem claim8_prompt_builder (f : UploadedFile) (pdf : UploadedFile → PdfResult)
    (provider : PromptRequest → ProviderResult) (text : String)
    (hpdf : pdf f = PdfResult.ok text) :
    buildPrompt text = PromptRequest.mk systemPrompt text ∧
    (parseResumeHandler (some f) pdf provider).2
      = [Effect.pdfExtract, Effect.providerCall (PromptRequest.mk systemPrompt text)] := by
  refine ⟨rfl, ?_⟩
  match hv : provider (buildPrompt text) with
  | ProviderResult.err m =>
    simp only [buildPrompt] at hv
    simp [parseResumeHandler, hpdf, hv, buildPrompt]
  | ProviderResult.ok raw =>
    simp only [buildPrompt] at hv
    match hj : jsonParse raw with
    | none => simp [parseResumeHandler, hpdf, hv, hj, buildPrompt]
    | some j => simp [parseResumeHandler, hpdf, hv, hj, buildPrompt]

/-- Witness for C8 at a concrete request. -/
theorem claim8_witness :
    buildPrompt "hello" = PromptRequest.mk systemPrompt "hello" ∧
    (parseResumeHandler (some (UploadedFile.mk [3]))
        (fun _ => PdfResult.ok "hello") (fun _ => ProviderResult.ok "\x7b\x7d")).2
      = [Effect.pdfExtract, Effect.providerCall (PromptRequest.mk systemPrompt "hello")] :=
  claim8_prompt_builder (UploadedFile.mk [3]) _ _ "hello" rfl

/-- C9: on a successful share-create the generated identifier is the
8-character nanoid drawn from the URL-safe alphabet (every character is
alphanumeric, hyphen or underscore), the persisted record is exactly the
caller data together with the creation timestamp under that identifier, and
the response returns the same identifier. -/
theorem claim9_create_share (store : List ShareRecord) (randomBytes : List Nat)
    (v : Json) (now : Nat)
    (hlen : 8 ≤ randomBytes.length)
    (hnull : v.isNull = false)
    (hfresh : (findShare store (nanoid randomBytes 8)).isSome = false) :
    (nanoid randomBytes 8).length = 8 ∧
    (∀ c ∈ (nanoid randomBytes 8).data, c ∈ urlAlphabet.data) ∧
    (∀ c ∈ (nanoid randomBytes 8).data,
      c.isAlphanum = true ∨ c = Char.ofNat 45 ∨ c = Char.ofNat 95) ∧
    shareCreateHandler store randomBytes v now
      = (HttpResponse.mk 200 (Json.obj [("shareId", Json.str (nanoid randomBytes 8))]),
         store ++ [ShareRecord.mk (nanoid randomBytes 8) v now]) := by
  have hmem : ∀ c ∈ (nanoid randomBytes 8).data, c ∈ urlAlphabet.data := by
    intro c hcm
    simp only [nanoid, String.mk] at hcm
    rcases List.mem_map.mp hcm with ⟨b, _, hb⟩
    rw [← hb]
    exact urlAlphabet_getD_mem b
  refine ⟨?_, hmem, ?_, ?_⟩
  · rw [show (nanoid randomBytes 8).length = ((randomBytes.take 8).map
        (fun b => urlAlphabet.data.getD (b % 64) 'u')).length from rfl,
      List.length_map, List.length_take]
    exact Nat.min_eq_left hlen
  · intro c hcm
    exact urlAlphabet_chars_urlsafe c (hmem c hcm)
  · simp [shareCreateHandler, hnull, hfresh]

/-- Witness for C9 at a concrete byte source, body and timestamp. -/
theorem claim9_witness :
    (nanoid [0, 1, 2, 3, 4, 5, 6, 7] 8).length = 8 ∧
    shareCreateHandler [] [0, 1, 2, 3, 4, 5, 6, 7] (Json.str "hello") 5
      = (HttpResponse.mk 200 (Json.obj [("shareId", Json.str "useandom")]),
         [ShareRecord.mk "useandom" (Json.str "hello") 5]) :=
  ⟨(claim9_create_share [] [0, 1, 2, 3, 4, 5, 6, 7] (Json.str "hello") 5
      (by norm_num) rfl rfl).1,
   (claim9_create_share [] [0, 1, 2, 3, 4, 5, 6, 7] (Json.str "hello") 5
      (by norm_num) rfl rfl).2.2.2⟩

/-- C10: the TTL configured on the storage layer by the schema option is
exactly 2592000 seconds, that is 30 days; and expiry is not read-time
filtering in the application code — the share lookup handler is invariant
under arbitrary rewriting of every createdAt timestamp in the store, because
the query filters on the identifier alone. -/
theorem claim10_ttl :
    shareExpireSeconds = 2592000 ∧
    shareExpireSeconds = 30 * 24 * 60 * 60 ∧
    (∀ (store : List ShareRecord) (id : String) (f : ShareRecord → Nat),
      getShareHandler (store.map (fun r => ShareRecord.mk r.shareId r.data (f r))) id
        = getShareHandler store id) := by
  refine ⟨rfl, rfl, ?_⟩
  intro store id f
  rw [getShareHandler, getShareHandler, findShare_map_createdAt]
  match findShare store id with
  | none => rfl
  | some r => rfl
